import Mathlib

/-
Verification of the authentication/authorization core of the abroad_khabar
backend (FastAPI + python-jose + passlib), as a shallow embedding in Lean.

Python modules are embedded as Lean namespaces:
  jose         - the python-jose jwt.encode/jwt.decode collaborator (ideal-MAC model)
  settings     - app/core/config.py (default values)
  jwt          - app/backend/app/auth/jwt.py
  security     - app/backend/app/core/security.py
  models       - app/backend/app/models/user.py
  dependencies - app/backend/app/auth/dependencies.py
  authapi      - app/backend/app/api/v1/auth.py
  permissions  - app/backend/app/core/permissions.py

Clocks are explicit: every operation that reads datetime.utcnow()/time.time()
takes the current time (in whole seconds since the epoch) as an argument.
-/

set_option maxHeartbeats 1000000

namespace AbroadKhabar

/-- A JSON claim value. The tokens in this codebase only ever carry strings
(sub, type, purpose, role) and numeric timestamps (exp, iat), so a two-case
value type is enough. -/
inductive JValue where
  | str (s : String)
  | num (n : Int)
deriving DecidableEq, Repr

/-- A claims map: a Python dict with string keys, modelled as an association
list in which an insert removes any previous binding of its key. -/
abbrev Claims := List (String × JValue)

namespace Claims

/-- Dict lookup: d.get(k), returning None when the key is absent. -/
def get (m : Claims) (k : String) : Option JValue :=
  (m.find? (fun p => p.1 == k)).map (fun p => p.2)

/-- Dict update of one key: d[k] = v (any previous binding of k is dropped). -/
def insert (m : Claims) (k : String) (v : JValue) : Claims :=
  (k, v) :: m.filter (fun p => p.1 != k)

end Claims

/-! Model of the Python builtins str(int) and int(str): canonical decimal
printing and parsing, with a proved round trip. -/

/-- The decimal digit characters. -/
def digitChar : Nat → Char
  | 0 => '0'
  | 1 => '1'
  | 2 => '2'
  | 3 => '3'
  | 4 => '4'
  | 5 => '5'
  | 6 => '6'
  | 7 => '7'
  | 8 => '8'
  | 9 => '9'
  | _ => '*'

/-- Inverse of digitChar on the ten digit characters. -/
def digitVal? (c : Char) : Option Nat :=
  if c = '0' then some 0 else if c = '1' then some 1 else if c = '2' then some 2
  else if c = '3' then some 3 else if c = '4' then some 4 else if c = '5' then some 5
  else if c = '6' then some 6 else if c = '7' then some 7 else if c = '8' then some 8
  else if c = '9' then some 9 else none

/-- Decimal digits of n, least significant first. -/
def natDigitsRev (n : Nat) : List Nat :=
  if h : n < 10 then [n] else n % 10 :: natDigitsRev (n / 10)
termination_by n
decreasing_by
  exact Nat.div_lt_self (by omega) (by omega)

/-- Model of Python str(n) for a natural n, as a character list. -/
def pyStrOfNat (n : Nat) : List Char :=
  ((natDigitsRev n).reverse).map digitChar

/-- Model of Python str(i) for an int i. -/
def pyStrOfInt (i : Int) : List Char :=
  if i < 0 then '-' :: pyStrOfNat i.natAbs else pyStrOfNat i.natAbs

/-- Accumulating decimal parser over a run of digit characters. -/
def parseDigitsFrom (acc : Nat) : List Char → Option Nat
  | [] => some acc
  | c :: cs =>
    match digitVal? c with
    | some d => parseDigitsFrom (acc * 10 + d) cs
    | none => none

/-- Parse a nonempty all-digits string as a natural number. -/
def parseNatChars : List Char → Option Nat
  | [] => none
  | c :: cs => parseDigitsFrom 0 (c :: cs)

/-- Model of Python int(s) on a string: optional leading minus sign followed
by decimal digits; any other shape raises ValueError, modelled as none. -/
def pyIntOfChars (cs : List Char) : Option Int :=
  match cs with
  | [] => none
  | c :: rest =>
    if c = '-' then (parseNatChars rest).map (fun n => -(n : Int))
    else (parseNatChars (c :: rest)).map (fun n => (n : Int))

/-- Python truthiness of a claim value: empty strings and zero are falsy. -/
def jvTruthy : JValue → Bool
  | .str s => s != ""
  | .num n => n != 0

/-- Model of Python int(x) applied to a raw claim value: an int passes
through, a string is parsed as a signed decimal (ValueError modelled as
none). -/
def pyIntOfValue : JValue → Option Int
  | .num n => some n
  | .str s => pyIntOfChars s.toList

/-- A signed token. Modelled from the python-jose collaborator as an ideal
MAC: the token records the payload, the signing key and the header
algorithm, and signature verification succeeds exactly when the stored key
equals the verification key (and the algorithm is among the accepted
ones). -/
structure JWT where
  payload : Claims
  key : String
  alg : String
deriving DecidableEq, Repr

namespace jose

/-- jose.jwt.encode: sign a claims map. -/
def encode (claims : Claims) (key : String) (alg : String) : JWT :=
  ⟨claims, key, alg⟩

/-- Registered-claim check run by jose.jwt.decode: an exp claim, when
present, must parse as a number and must not lie strictly in the past. -/
def validate_exp (c : Claims) (now : Int) : Bool :=
  match c.get "exp" with
  | none => true
  | some v =>
    match pyIntOfValue v with
    | none => false
    | some e => decide (now ≤ e)

/-- Registered-claim check: an nbf claim, when present, must parse as a
number that is not in the future. -/
def validate_nbf (c : Claims) (now : Int) : Bool :=
  match c.get "nbf" with
  | none => true
  | some v =>
    match pyIntOfValue v with
    | none => false
    | some n => decide (n ≤ now)

/-- Registered-claim check: an iat claim, when present, must parse as a
number. -/
def validate_iat (c : Claims) : Bool :=
  match c.get "iat" with
  | none => true
  | some v => (pyIntOfValue v).isSome

/-- Registered-claim check: a sub claim, when present, must be a string. -/
def validate_sub (c : Claims) : Bool :=
  match c.get "sub" with
  | none => true
  | some (.str _) => true
  | some (.num _) => false

/-- Registered-claim check: the repository always calls decode without an
audience, so a token carrying an aud claim is rejected. -/
def validate_aud (c : Claims) : Bool :=
  (c.get "aud").isNone

/-- jose.jwt.decode with signature verification on: checks the signature
and the header algorithm, then validates the registered claims; any
failure raises JWTError, modelled as none. -/
def decode (t : JWT) (key : String) (algs : List String) (now : Int) :
    Option Claims :=
  if t.key == key && algs.contains t.alg
      && validate_iat t.payload && validate_nbf t.payload now
      && validate_exp t.payload now && validate_sub t.payload
      && validate_aud t.payload
  then some t.payload
  else none

end jose

namespace settings

/-- Default configuration values from app/core/config.py. -/
def SECRET_KEY : String := "your-secret-key-change-in-production"

def ALGORITHM : String := "HS256"

def ACCESS_TOKEN_EXPIRE_MINUTES : Int := 60 * 24 * 7

def REFRESH_TOKEN_EXPIRE_DAYS : Int := 30

end settings

namespace jwt

/-- create_jwt_token from app/auth/jwt.py: copies the data, computes the
expiry from the supplied timedelta (falsy deltas, None or zero, fall back
to the per-type default), then injects exp, iat and type before signing.
expires_delta is in whole seconds. -/
def create_jwt_token (data : Claims) (now : Int) (expires_delta : Option Int)
    (token_type : String) : JWT :=
  let expire : Int :=
    match expires_delta with
    | some d =>
      if d ≠ 0 then now + d
      else if token_type = "access" then
        now + settings.ACCESS_TOKEN_EXPIRE_MINUTES * 60
      else now + settings.REFRESH_TOKEN_EXPIRE_DAYS * 24 * 60 * 60
    | none =>
      if token_type = "access" then
        now + settings.ACCESS_TOKEN_EXPIRE_MINUTES * 60
      else now + settings.REFRESH_TOKEN_EXPIRE_DAYS * 24 * 60 * 60
  let to_encode :=
    ((data.insert "exp" (.num expire)).insert "iat" (.num now)).insert
      "type" (.str token_type)
  jose.encode to_encode settings.SECRET_KEY settings.ALGORITHM

/-- verify_jwt_token from app/auth/jwt.py: jose decode with the configured
key and algorithm; JWTError is caught and turned into None. -/
def verify_jwt_token (token : JWT) (now : Int) : Option Claims :=
  jose.decode token settings.SECRET_KEY [settings.ALGORITHM] now

/-- create_access_token from app/auth/jwt.py (delegates with the default
expiry and type access). -/
def create_access_token (data : Claims) (now : Int) : JWT :=
  create_jwt_token data now none "access"

/-- create_refresh_token from app/auth/jwt.py. -/
def create_refresh_token (data : Claims) (now : Int) : JWT :=
  create_jwt_token data now none "refresh"

/-- get_user_id_from_token from app/auth/jwt.py: reads sub, returns None on
a falsy value, otherwise int() with ValueError and TypeError caught. -/
def get_user_id_from_token (payload : Claims) : Option Int :=
  match payload.get "sub" with
  | none => none
  | some v => if jvTruthy v then pyIntOfValue v else none

/-- create_password_reset_token from app/auth/jwt.py: a 30-minute token
whose claims are the stringified user id and purpose password_reset; the
token_type argument is left at its default, access. -/
def create_password_reset_token (user_id : Int) (now : Int) : JWT :=
  create_jwt_token
    [("sub", .str (String.mk (pyStrOfInt user_id))),
     ("purpose", .str "password_reset")]
    now (some (30 * 60)) "access"

/-- verify_password_reset_token from app/auth/jwt.py: decode, then reject a
falsy payload or a payload whose purpose is not password_reset. -/
def verify_password_reset_token (token : JWT) (now : Int) : Option Int :=
  match verify_jwt_token token now with
  | none => none
  | some payload =>
    if payload = [] ∨ payload.get "purpose" ≠ some (.str "password_reset")
    then none
    else get_user_id_from_token payload

end jwt

/-- Model of the passlib CryptContext collaborator configured with the
bcrypt scheme. The scheme-specific hash and comparison are kept abstract
as function fields; the context-level behaviour that the source relies on
(identification of the digest format before dispatch) is explicit. -/
structure CryptContext where
  hashFn : List Char → List Char
  verifyFn : List Char → List Char → Bool

/-- Modelled from passlib: a digest is dispatched to the bcrypt handler
only when it carries one of the bcrypt identifying prefixes. -/
def bcryptIdentifiable (digest : List Char) : Bool :=
  List.isPrefixOf "$2b$".toList digest || List.isPrefixOf "$2a$".toList digest
    || List.isPrefixOf "$2y$".toList digest
    || List.isPrefixOf "$2x$".toList digest
    || List.isPrefixOf "$2$".toList digest

/-- pwd_context.verify: passlib raises UnknownHashError (modelled as the
error case) when the digest cannot be identified as a bcrypt hash; the
source never catches it. -/
def CryptContext.verify (ctx : CryptContext) (secret digest : List Char) :
    Except String Bool :=
  if bcryptIdentifiable digest then .ok (ctx.verifyFn secret digest)
  else .error "hash could not be identified"

/-- pwd_context.hash: dispatch to the bcrypt handler. -/
def CryptContext.hash (ctx : CryptContext) (secret : List Char) : List Char :=
  ctx.hashFn secret

namespace security

/-- verify_password from app/core/security.py: truncate the plain password
to its first 72 characters, then pwd_context.verify. There is no exception
handling. -/
def verify_password (ctx : CryptContext)
    (plain_password hashed_password : List Char) : Except String Bool :=
  let p :=
    if plain_password.length > 72 then plain_password.take 72
    else plain_password
  CryptContext.verify ctx p hashed_password

/-- get_password_hash from app/core/security.py: truncate to the first 72
characters, then pwd_context.hash. -/
def get_password_hash (ctx : CryptContext) (password : List Char) :
    List Char :=
  let p := if password.length > 72 then password.take 72 else password
  CryptContext.hash ctx p

/-- create_access_token from app/core/security.py (the second, divergent
signing path): expiry from time.time() plus the delta in seconds (falsy
deltas fall back to the configured default), then injects exp and type -
and nothing else - before signing. -/
def create_access_token (data : Claims) (now : Int)
    (expires_delta : Option Int) : JWT :=
  let expire : Int :=
    match expires_delta with
    | some d =>
      if d ≠ 0 then now + d
      else now + settings.ACCESS_TOKEN_EXPIRE_MINUTES * 60
    | none => now + settings.ACCESS_TOKEN_EXPIRE_MINUTES * 60
  jose.encode ((data.insert "exp" (.num expire)).insert "type" (.str "access"))
    settings.SECRET_KEY settings.ALGORITHM

/-- create_refresh_token from app/core/security.py: expiry is now plus the
configured refresh lifetime; injects exp and type only. -/
def create_refresh_token (data : Claims) (now : Int) : JWT :=
  jose.encode
    ((data.insert "exp"
        (.num (now + settings.REFRESH_TOKEN_EXPIRE_DAYS * 24 * 60 * 60))).insert
      "type" (.str "refresh"))
    settings.SECRET_KEY settings.ALGORITHM

/-- verify_token from app/core/security.py: jose decode with the configured
key and algorithm, JWTError turned into None. -/
def verify_token (token : JWT) (now : Int) : Option Claims :=
  jose.decode token settings.SECRET_KEY [settings.ALGORITHM] now

end security

namespace models

/-- UserRole from app/models/user.py: a str-enum whose values are the
uppercase role names. -/
inductive UserRole where
  | ADMIN
  | EDITOR
  | VIEWER
  | USER
deriving DecidableEq, Repr

/-- The string value of the str-enum member (a member of a str-enum
compares equal to its value). -/
def UserRole.value : UserRole → String
  | .ADMIN => "ADMIN"
  | .EDITOR => "EDITOR"
  | .VIEWER => "VIEWER"
  | .USER => "USER"

/-- UserStatus from app/models/user.py. -/
inductive UserStatus where
  | ACTIVE
  | INACTIVE
  | SUSPENDED
deriving DecidableEq, Repr

/-- The User ORM model, restricted to the columns the authentication core
reads (the profile, timestamp and relationship columns play no role in any
guard or token operation). -/
structure User where
  id : Int
  email : String
  username : String
  hashed_password : List Char
  role : UserRole
  status : UserStatus
deriving DecidableEq, Repr

end models

/-- A FastAPI HTTPException, identified by its status code and detail. -/
structure HTTPException where
  status_code : Nat
  detail : String
deriving DecidableEq, Repr

namespace dependencies

/-- get_current_user from app/auth/dependencies.py: the optional-auth
resolver. Absent credential, failed decode, falsy or unparseable sub,
unknown user and non-active status all yield None instead of an error.
The database is modelled as the list of user rows; the filter by primary
key returns the first row with the requested id. -/
def get_current_user (credentials : Option JWT) (db : List models.User)
    (now : Int) : Option models.User :=
  match credentials with
  | none => none
  | some token =>
    match jwt.verify_jwt_token token now with
    | none => none
    | some payload =>
      match jwt.get_user_id_from_token payload with
      | none => none
      | some user_id =>
        -- the source re-checks the id for truthiness: a zero id is rejected
        if user_id = 0 then none
        else
          match db.find? (fun u => u.id == user_id) with
          | none => none
          | some user =>
            if user.status ≠ models.UserStatus.ACTIVE then none
            else some user

/-- get_current_active_user from app/auth/dependencies.py, composed with
its get_current_user dependency: raises 401 when the resolver produced no
user, 400 when the resolved user is not active. -/
def get_current_active_user (credentials : Option JWT)
    (db : List models.User) (now : Int) : Except HTTPException models.User :=
  match get_current_user credentials db now with
  | none => .error ⟨401, "Authentication required"⟩
  | some u =>
    if u.status ≠ models.UserStatus.ACTIVE then
      .error ⟨400, "User account is not active"⟩
    else .ok u

/-- get_current_editor_user from app/auth/dependencies.py, taking the
outcome of its get_current_active_user dependency: a role outside the list
[ADMIN, EDITOR] is rejected with 403. -/
def get_current_editor_user
    (current_user : Except HTTPException models.User) :
    Except HTTPException models.User :=
  match current_user with
  | .error e => .error e
  | .ok u =>
    if ¬ ([models.UserRole.ADMIN, models.UserRole.EDITOR].contains u.role)
    then .error ⟨403, "Editor privileges required"⟩
    else .ok u

end dependencies

/-- Outcome of the reset-password endpoint: an HTTP error response, an
uncaught Python exception (TypeError or ValueError from the bare int()
coercion), or success carrying the updated user table. -/
inductive ResetOutcome where
  | httpError (e : HTTPException)
  | pyError
  | ok (newDb : List models.User)
deriving DecidableEq, Repr

namespace authapi

/-- The OAuth2PasswordBearer scheme used by app/api/v1/auth.py: created
with auto_error left at its default, so a request without a bearer
credential is rejected with 401 before the dependency body runs. -/
def oauth2_scheme (credential : Option JWT) : Except HTTPException JWT :=
  match credential with
  | none => .error ⟨401, "Not authenticated"⟩
  | some t => .ok t

/-- The shared 401 raised by get_current_user in app/api/v1/auth.py. -/
def credentials_exception : HTTPException :=
  ⟨401, "Could not validate credentials"⟩

/-- Modelled from the SQLAlchemy filter User.id == user_id where user_id is
the raw sub claim: on the SQLite backend the INTEGER column affinity
coerces a numeric text operand, so a decimal string matches the numeric
id and anything else matches no row. -/
def sqlaIdEq (id : Int) (v : JValue) : Bool :=
  match v with
  | .num n => id == n
  | .str s =>
    match pyIntOfChars s.toList with
    | some n => id == n
    | none => false

/-- get_current_user from app/api/v1/auth.py (the raising resolver used by
the permission and role guards): any decode failure, missing sub, missing
user or non-active status raises the shared 401. -/
def get_current_user (token : JWT) (db : List models.User) (now : Int) :
    Except HTTPException models.User :=
  match security.verify_token token now with
  | none => .error credentials_exception
  | some payload =>
    match payload.get "sub" with
    | none => .error credentials_exception
    | some user_id =>
      match db.find? (fun u => sqlaIdEq u.id user_id) with
      | none => .error credentials_exception
      | some user =>
        if user.status ≠ models.UserStatus.ACTIVE then
          .error credentials_exception
        else .ok user

/-- reset_password from app/api/v1/auth.py: verify the token, reject a
falsy payload or a purpose other than password_reset with the 400 reset
error, coerce sub with a bare int() (TypeError on None, ValueError on a
non-decimal string, both uncaught), look the user up, and on success store
the freshly hashed password. -/
def reset_password (ctx : CryptContext) (token : JWT)
    (new_password : List Char) (db : List models.User) (now : Int) :
    ResetOutcome :=
  match security.verify_token token now with
  | none => .httpError ⟨400, "Invalid or expired reset token"⟩
  | some payload =>
    if payload = [] ∨ payload.get "purpose" ≠ some (.str "password_reset")
    then .httpError ⟨400, "Invalid or expired reset token"⟩
    else
      match payload.get "sub" with
      | none => .pyError
      | some v =>
        match pyIntOfValue v with
        | none => .pyError
        | some user_id =>
          match db.find? (fun u => u.id == user_id) with
          | none => .httpError ⟨400, "User not found"⟩
          | some _ =>
            .ok (db.map (fun u =>
              if u.id == user_id then
                ⟨u.id, u.email, u.username,
                  security.get_password_hash ctx new_password, u.role,
                  u.status⟩
              else u))

end authapi

namespace permissions

/-- UserRole from app/core/permissions.py: a second, independent str-enum
whose values are the lowercase role names. -/
inductive UserRole where
  | ADMIN
  | EDITOR
  | VIEWER
  | USER
deriving DecidableEq, Repr

/-- The string value of the permissions-module role enum. -/
def UserRole.value : UserRole → String
  | .ADMIN => "admin"
  | .EDITOR => "editor"
  | .VIEWER => "viewer"
  | .USER => "user"

/-- The closed permission enumeration from app/core/permissions.py. -/
inductive Permission where
  | USER_CREATE
  | USER_READ
  | USER_UPDATE
  | USER_DELETE
  | BLOG_CREATE
  | BLOG_READ
  | BLOG_UPDATE
  | BLOG_DELETE
  | BLOG_PUBLISH
  | SERVICE_CREATE
  | SERVICE_READ
  | SERVICE_UPDATE
  | SERVICE_DELETE
  | VIDEO_CREATE
  | VIDEO_READ
  | VIDEO_UPDATE
  | VIDEO_DELETE
  | IMAGE_CREATE
  | IMAGE_READ
  | IMAGE_UPDATE
  | IMAGE_DELETE
  | AD_CREATE
  | AD_READ
  | AD_UPDATE
  | AD_DELETE
  | MEDIA_UPLOAD
  | MEDIA_DELETE
deriving DecidableEq, Repr

/-- ROLE_PERMISSIONS from app/core/permissions.py: the literal role to
permission-list table. The Python dict binds all four roles, so the .get
default of the empty list never fires for an enum key. -/
def ROLE_PERMISSIONS : UserRole → List Permission
  | .ADMIN =>
    [.USER_CREATE, .USER_READ, .USER_UPDATE, .USER_DELETE,
     .BLOG_CREATE, .BLOG_READ, .BLOG_UPDATE, .BLOG_DELETE, .BLOG_PUBLISH,
     .SERVICE_CREATE, .SERVICE_READ, .SERVICE_UPDATE, .SERVICE_DELETE,
     .VIDEO_CREATE, .VIDEO_READ, .VIDEO_UPDATE, .VIDEO_DELETE,
     .IMAGE_CREATE, .IMAGE_READ, .IMAGE_UPDATE, .IMAGE_DELETE,
     .AD_CREATE, .AD_READ, .AD_UPDATE, .AD_DELETE,
     .MEDIA_UPLOAD, .MEDIA_DELETE]
  | .EDITOR =>
    [.BLOG_CREATE, .BLOG_READ, .BLOG_UPDATE, .BLOG_DELETE, .BLOG_PUBLISH,
     .SERVICE_READ,
     .VIDEO_CREATE, .VIDEO_READ, .VIDEO_UPDATE, .VIDEO_DELETE,
     .IMAGE_CREATE, .IMAGE_READ, .IMAGE_UPDATE, .IMAGE_DELETE,
     .MEDIA_UPLOAD]
  | .VIEWER =>
    [.BLOG_READ, .SERVICE_READ, .VIDEO_READ, .IMAGE_READ, .AD_READ]
  | .USER =>
    [.BLOG_READ, .SERVICE_READ, .VIDEO_READ]

/-- The by-value enum constructor UserRole(s) of the permissions module:
succeeds only on the four lowercase values, ValueError otherwise. -/
def parseUserRole (s : String) : Option UserRole :=
  if s = "admin" then some .ADMIN
  else if s = "editor" then some .EDITOR
  else if s = "viewer" then some .VIEWER
  else if s = "user" then some .USER
  else none

/-- The duck-typed user argument accepted by has_permission: None, an ORM
User instance, or a raw claims dict. -/
inductive AuthSubject where
  | pyNone
  | user (u : models.User)
  | claims (m : Claims)
deriving DecidableEq, Repr

/-- has_permission from app/core/permissions.py. A falsy user (None or the
empty dict) is denied. The role attribute of an ORM User is the models
str-enum, which is an instance of str equal to its uppercase value, so it
is fed to the lowercase-valued permissions enum constructor; a ValueError
there denies. A dict role that is a falsy or unrecognised string denies; a
non-string role skips the conversion and the final lookup with a non-enum
key falls back to the empty permission list. -/
def has_permission (user : AuthSubject) (permission : Permission) : Bool :=
  match user with
  | .pyNone => false
  | .user u =>
    match parseUserRole u.role.value with
    | some r => (ROLE_PERMISSIONS r).contains permission
    | none => false
  | .claims m =>
    if m = [] then false
    else
      match m.get "role" with
      | none => false
      | some (.str s) =>
        if s = "" then false
        else
          match parseUserRole s with
          | some r => (ROLE_PERMISSIONS r).contains permission
          | none => false
      | some (.num _) =>
        -- a numeric role is either falsy (denied) or misses both the enum
        -- conversion and every key of the table, so the .get default []
        -- denies as well
        false

/-- require_permission from app/core/permissions.py, composed with the
oauth2 scheme and the raising get_current_user of app/api/v1/auth.py it
depends on. The in-body None check on the user is unreachable (the
dependency raises instead of returning None and an ORM instance is always
truthy), so the body reduces to the has_permission test. -/
def require_permission (permission : Permission) (credential : Option JWT)
    (db : List models.User) (now : Int) : Except HTTPException models.User :=
  match authapi.oauth2_scheme credential with
  | .error e => .error e
  | .ok token =>
    match authapi.get_current_user token db now with
    | .error e => .error e
    | .ok user =>
      if ¬ has_permission (.user user) permission then
        .error ⟨403, "Insufficient permissions"⟩
      else .ok user

end permissions

/-- Decidable equality of guard outcomes. -/
instance {ε α : Type} [DecidableEq ε] [DecidableEq α] :
    DecidableEq (Except ε α) := fun x y =>
  match x, y with
  | .ok a, .ok b =>
    if h : a = b then .isTrue (by rw [h]) else .isFalse (by simp [h])
  | .error a, .error b =>
    if h : a = b then .isTrue (by rw [h]) else .isFalse (by simp [h])
  | .ok _, .error _ => .isFalse (fun h => Except.noConfusion h)
  | .error _, .ok _ => .isFalse (fun h => Except.noConfusion h)

/-- Well-formedness of a caller-supplied claims map from the point of view
of a later decode at time now: no audience claim, a string subject if any,
and an nbf claim, if any, that is numeric and not in the future. Tokens
issued by this codebase always satisfy it. -/
def claimsAcceptable (c : Claims) (now : Int) : Bool :=
  jose.validate_aud c && jose.validate_sub c && jose.validate_nbf c now

/-- A concrete account whose lifecycle status is not active. -/
def c1InactiveUser : models.User :=
  ⟨2, "bob@x.io", "bob", [], .USER, .INACTIVE⟩

/-- A well-signed access token for user id 2, issued at time 1000 with the
default lifetime. -/
def c1Token : JWT :=
  jwt.create_jwt_token [("sub", JValue.str "2")] 1000 none "access"

/-- A concrete administrator account; its role is the uppercase-valued
models enum. -/
def c4AdminUser : models.User :=
  ⟨1, "adm@x.io", "adm", [], .ADMIN, .ACTIVE⟩

/-- A concrete passlib context instance. -/
def c5Ctx : CryptContext :=
  ⟨fun s => s, fun _ _ => false⟩

/-- An ordinary access token with subject 1 and no purpose claim, issued at
time 0 by the security-module signing path. -/
def c6AccessToken : JWT :=
  security.create_access_token [("sub", JValue.str "1")] 0 none

/-- A context whose modelled bcrypt comparison is literal equality of
secret and digest. -/
def c8Ctx : CryptContext :=
  ⟨fun s => s, fun s d => s == d⟩

/-- A concrete active account with id 5. -/
def c9ActiveUser : models.User :=
  ⟨5, "eve@x.io", "eve", [], .USER, .ACTIVE⟩

/-- A concrete active account with the editor role. -/
def c10EditorUser : models.User :=
  ⟨3, "ed@x.io", "ed", [], .EDITOR, .ACTIVE⟩

/-! Helper lemmas. -/

theorem Claims.get_insert_self (m : Claims) (k : String) (v : JValue) :
    Claims.get (Claims.insert m k v) k = some v := by
  simp [Claims.get, Claims.insert, List.find?]

theorem Claims.find?_filter_ne (m : Claims) (k k' : String) (h : k' ≠ k) :
    (m.filter (fun p => p.1 != k)).find? (fun p => p.1 == k')
      = m.find? (fun p => p.1 == k') := by
  have hkk : (k == k') = false := by
    rw [beq_eq_false_iff_ne]
    exact fun hkk => h hkk.symm
  induction m with
  | nil => rfl
  | cons a m ih =>
    by_cases hk : a.1 = k
    · have hne : (a.1 == k') = false := by
        rw [beq_eq_false_iff_ne, hk]
        exact fun hkk => h hkk.symm
      simp [List.filter_cons, hk, List.find?, hne, hkk, ih]
    · by_cases hk' : a.1 = k'
      · have hpos : (a.1 == k') = true := by rw [beq_iff_eq]; exact hk'
        have hneq : (a.1 != k) = true := by simp [hk]
        simp [List.filter_cons, hneq, List.find?, hpos]
      · have hneg : (a.1 == k') = false := by rw [beq_eq_false_iff_ne]; exact hk'
        have hneq : (a.1 != k) = true := by simp [hk]
        simp [List.filter_cons, hneq, List.find?, hneg, ih]

theorem Claims.get_insert_ne (m : Claims) (k k' : String) (v : JValue) (h : k' ≠ k) :
    Claims.get (Claims.insert m k v) k' = Claims.get m k' := by
  have hne : (k == k') = false := by
    simp
    exact fun hkk => h hkk.symm
  simp [Claims.get, Claims.insert, List.find?, hne, Claims.find?_filter_ne m k k' h]

theorem digitVal?_digitChar (d : Nat) (h : d < 10) :
    digitVal? (digitChar d) = some d := by
  interval_cases d <;> rfl

theorem digitChar_ne_minus (d : Nat) (h : d < 10) : digitChar d ≠ '-' := by
  interval_cases d <;> decide

theorem natDigitsRev_ne_nil (n : Nat) : natDigitsRev n ≠ [] := by
  rw [natDigitsRev]
  split <;> simp

theorem natDigitsRev_lt (n : Nat) : ∀ d ∈ natDigitsRev n, d < 10 := by
  induction n using Nat.strong_induction_on with
  | _ n ih =>
    rw [natDigitsRev]
    split
    · intro d hd
      simp at hd
      omega
    · intro d hd
      simp at hd
      rcases hd with h1 | h2
      · omega
      · exact ih (n / 10) (Nat.div_lt_self (by omega) (by omega)) d h2

theorem foldr_natDigitsRev (n : Nat) :
    (natDigitsRev n).foldr (fun d a => a * 10 + d) 0 = n := by
  induction n using Nat.strong_induction_on with
  | _ n ih =>
    rw [natDigitsRev]
    split
    · simp
    · simp only [List.foldr_cons]
      rw [ih (n / 10) (Nat.div_lt_self (by omega) (by omega))]
      omega

theorem parseDigitsFrom_map (ds : List Nat) (h : ∀ d ∈ ds, d < 10) :
    ∀ acc, parseDigitsFrom acc (ds.map digitChar)
      = some (ds.foldl (fun a d => a * 10 + d) acc) := by
  induction ds with
  | nil => intro acc; rfl
  | cons d ds ih =>
    intro acc
    have hd : d < 10 := h d (by simp)
    simp only [List.map_cons, parseDigitsFrom, digitVal?_digitChar d hd,
      List.foldl_cons]
    exact ih (fun x hx => h x (by simp [hx])) (acc * 10 + d)

theorem parseNatChars_pyStrOfNat (n : Nat) :
    parseNatChars (pyStrOfNat n) = some n := by
  have hlt : ∀ d ∈ (natDigitsRev n).reverse, d < 10 := by
    intro d hd
    exact natDigitsRev_lt n d (List.mem_reverse.mp hd)
  cases hrev : (natDigitsRev n).reverse with
  | nil =>
    exact absurd (List.reverse_eq_nil_iff.mp hrev) (natDigitsRev_ne_nil n)
  | cons d ds =>
    have : parseNatChars (pyStrOfNat n)
        = parseDigitsFrom 0 ((d :: ds).map digitChar) := by
      simp [pyStrOfNat, hrev, parseNatChars, List.map_cons]
    rw [this, parseDigitsFrom_map (d :: ds) (by rw [← hrev]; exact hlt) 0]
    congr 1
    have := foldr_natDigitsRev n
    calc (d :: ds).foldl (fun a x => a * 10 + x) 0
        = ((natDigitsRev n).reverse).foldl (fun a x => a * 10 + x) 0 := by
          rw [hrev]
      _ = (natDigitsRev n).foldr (fun x a => a * 10 + x) 0 := by
          rw [List.foldl_reverse]
      _ = n := foldr_natDigitsRev n

theorem pyStrOfNat_head (n : Nat) :
    ∃ d ds, pyStrOfNat n = digitChar d :: ds ∧ d < 10 := by
  cases hrev : (natDigitsRev n).reverse with
  | nil =>
    exact absurd (List.reverse_eq_nil_iff.mp hrev) (natDigitsRev_ne_nil n)
  | cons d ds =>
    refine ⟨d, ds.map digitChar, by simp [pyStrOfNat, hrev], ?_⟩
    exact natDigitsRev_lt n d (List.mem_reverse.mp (by rw [hrev]; simp))

/-- Round trip of the Python builtins: int(str(i)) recovers i. -/
theorem pyIntOfChars_pyStrOfInt (i : Int) :
    pyIntOfChars (pyStrOfInt i) = some i := by
  by_cases hi : i < 0
  · have h1 : pyIntOfChars ('-' :: pyStrOfNat i.natAbs)
        = (parseNatChars (pyStrOfNat i.natAbs)).map (fun n => -(n : Int)) := by
      simp [pyIntOfChars]
    rw [pyStrOfInt, if_pos hi, h1, parseNatChars_pyStrOfNat]
    simp [abs_of_neg hi]
  · obtain ⟨d, ds, hds, hd10⟩ := pyStrOfNat_head i.natAbs
    have h1 : pyIntOfChars (digitChar d :: ds)
        = (parseNatChars (digitChar d :: ds)).map (fun n => (n : Int)) := by
      simp [pyIntOfChars, digitChar_ne_minus d hd10]
    rw [pyStrOfInt, if_neg hi, hds, h1, ← hds, parseNatChars_pyStrOfNat]
    simp
    omega

/-- Helper: the optional resolver of app/auth/dependencies.py only ever
returns an active user, because it filters non-active statuses itself. -/
theorem dependencies.get_current_user_active (credentials : Option JWT)
    (db : List models.User) (now : Int) (u : models.User)
    (h : dependencies.get_current_user credentials db now = some u) :
    u.status = models.UserStatus.ACTIVE := by
  unfold dependencies.get_current_user at h
  repeat' split at h
  all_goals simp_all

/-- C1: the spec expects a valid token for a non-active principal to end
the authenticated guard chain in the 400 AccountNotActive error, but the
optional resolver already filters non-active users to None, so the chain
ends in the 401 AuthenticationRequired error: witnessed by an inactive
user presenting a well-signed unexpired token. -/
theorem c1_counterexample :
    c1InactiveUser.status ≠ models.UserStatus.ACTIVE
    ∧ jwt.verify_jwt_token c1Token 1000 ≠ none
    ∧ dependencies.get_current_active_user (some c1Token) [c1InactiveUser] 1000
        ≠ Except.error ⟨400, "User account is not active"⟩
    ∧ dependencies.get_current_active_user (some c1Token) [c1InactiveUser] 1000
        = Except.error ⟨401, "Authentication required"⟩ := by decide

/-- C1 (amended): the guard chain get_current_user followed by
get_current_active_user can never produce the 400 AccountNotActive error;
whenever the resolver yields no principal - in particular for every
non-active principal presenting a valid token - the chain terminates with
the 401 AuthenticationRequired error. -/
theorem c1_status_guard_chain (credentials : Option JWT)
    (db : List models.User) (now : Int) :
    dependencies.get_current_active_user credentials db now
        ≠ Except.error ⟨400, "User account is not active"⟩
    ∧ (dependencies.get_current_user credentials db now = none →
        dependencies.get_current_active_user credentials db now
          = Except.error ⟨401, "Authentication required"⟩) := by
  constructor
  · unfold dependencies.get_current_active_user
    cases hg : dependencies.get_current_user credentials db now with
    | none => simp
    | some u =>
      have ha := dependencies.get_current_user_active credentials db now u hg
      simp [ha]
  · intro h
    unfold dependencies.get_current_active_user
    rw [h]

/-- C1 witness: the amended claim applied to the concrete inactive user. -/
theorem c1_status_guard_chain_witness :
    dependencies.get_current_active_user (some c1Token) [c1InactiveUser] 1000
      = Except.error ⟨401, "Authentication required"⟩ :=
  (c1_status_guard_chain (some c1Token) [c1InactiveUser] 1000).2 (by decide)

/-- C2: the claim that every token-encoding operation injects all three
bookkeeping claims fails for the security-module signing path: its access
token creation injects no iat claim at all. -/
theorem c2_counterexample :
    (security.create_access_token [] 0 none).payload.get "iat" = none := by
  decide

/-- C2 (amended): create_jwt_token injects iat equal to the current time,
type equal to the requested type and exp equal to iat plus the ttl; the
security-module create_access_token and create_refresh_token inject exp
equal to now plus the ttl and the type tag, but leave iat exactly as the
caller supplied it (normally absent). -/
theorem c2_injected_claims (data : Claims) (now d : Int) (tt : String)
    (hd : 0 < d) :
    ((jwt.create_jwt_token data now (some d) tt).payload.get "iat"
        = some (.num now)
      ∧ (jwt.create_jwt_token data now (some d) tt).payload.get "type"
        = some (.str tt)
      ∧ (jwt.create_jwt_token data now (some d) tt).payload.get "exp"
        = some (.num (now + d)))
    ∧ ((security.create_access_token data now (some d)).payload.get "iat"
        = data.get "iat"
      ∧ (security.create_access_token data now (some d)).payload.get "type"
        = some (.str "access")
      ∧ (security.create_access_token data now (some d)).payload.get "exp"
        = some (.num (now + d)))
    ∧ ((security.create_refresh_token data now).payload.get "iat"
        = data.get "iat"
      ∧ (security.create_refresh_token data now).payload.get "type"
        = some (.str "refresh")
      ∧ (security.create_refresh_token data now).payload.get "exp"
        = some (.num (now + settings.REFRESH_TOKEN_EXPIRE_DAYS * 24 * 60 * 60))) := by
  have hd' : d ≠ 0 := by omega
  simp only [jwt.create_jwt_token, security.create_access_token,
    security.create_refresh_token, jose.encode, hd', ite_true,
    if_true]
  refine ⟨⟨?_, ?_, ?_⟩, ⟨?_, ?_, ?_⟩, ⟨?_, ?_, ?_⟩⟩
  · rw [Claims.get_insert_ne _ _ _ _ (by decide), Claims.get_insert_self]
  · rw [Claims.get_insert_self]
  · rw [Claims.get_insert_ne _ _ _ _ (by decide),
      Claims.get_insert_ne _ _ _ _ (by decide), Claims.get_insert_self,
      if_pos hd']
  · rw [Claims.get_insert_ne _ _ _ _ (by decide),
      Claims.get_insert_ne _ _ _ _ (by decide)]
  · rw [Claims.get_insert_self]
  · rw [Claims.get_insert_ne _ _ _ _ (by decide), Claims.get_insert_self,
      if_pos hd']
  · rw [Claims.get_insert_ne _ _ _ _ (by decide),
      Claims.get_insert_ne _ _ _ _ (by decide)]
  · rw [Claims.get_insert_self]
  · rw [Claims.get_insert_ne _ _ _ _ (by decide), Claims.get_insert_self]

/-- C2 witness: the amended claim at a concrete input. -/
theorem c2_injected_claims_witness :
    (jwt.create_jwt_token [] 0 (some 60) "access").payload.get "iat"
      = some (.num 0) :=
  (c2_injected_claims [] 0 60 "access" (by decide)).1.1

/-- C4: the ADMIN superset claim fails for a principal: BLOG_READ is
granted to EDITOR by the table, yet has_permission applied to an ORM user
whose role is ADMIN denies it, because the uppercase enum value of the
models module does not parse into the lowercase-valued role enum of the
permissions module. -/
theorem c4_counterexample :
    (permissions.ROLE_PERMISSIONS permissions.UserRole.EDITOR).contains
        permissions.Permission.BLOG_READ = true
    ∧ permissions.has_permission (.user c4AdminUser)
        permissions.Permission.BLOG_READ = false := by decide

/-- C4 (amended): for a claims map carrying the permissions-module ADMIN
value (the lowercase string admin), has_permission grants every permission
of the closed enumeration, hence every permission any other role has; for
an ORM principal whose role is ADMIN (uppercase value), has_permission
denies every permission. -/
theorem c4_admin_superset (p : permissions.Permission) (u : models.User) :
    permissions.has_permission (.claims [("role", JValue.str "admin")]) p
        = true
    ∧ (u.role = models.UserRole.ADMIN →
        permissions.has_permission (.user u) p = false) := by
  constructor
  · cases p <;> decide
  · intro h
    simp [permissions.has_permission, h, models.UserRole.value,
      permissions.parseUserRole]

/-- C4 witness: the amended claim at a concrete permission and user. -/
theorem c4_admin_superset_witness :
    permissions.has_permission (.user c4AdminUser)
      permissions.Permission.SERVICE_UPDATE = false :=
  (c4_admin_superset permissions.Permission.SERVICE_UPDATE c4AdminUser).2 rfl

/-- C5: verify_password does not return false on a malformed digest: the
passlib context raises UnknownHashError and the function propagates it,
witnessed by the empty digest. -/
theorem c5_counterexample :
    security.verify_password c5Ctx ['x'] []
        = .error "hash could not be identified"
    ∧ security.verify_password c5Ctx ['x'] [] ≠ .ok false := by decide

/-- C5 (amended): verify_password returns a boolean exactly for digests
that passlib can identify as bcrypt hashes; on any other digest it
propagates the UnknownHashError raised by the context - there is no
exception handling in verify_password. -/
theorem c5_verify_malformed (ctx : CryptContext) (p d : List Char) :
    (bcryptIdentifiable d = false →
       security.verify_password ctx p d
         = .error "hash could not be identified")
    ∧ (bcryptIdentifiable d = true →
       security.verify_password ctx p d
         = .ok (ctx.verifyFn (if p.length > 72 then p.take 72 else p) d)) := by
  constructor <;> intro h <;>
    simp [security.verify_password, CryptContext.verify, h]

/-- C5 witness: the amended claim at a concrete malformed digest. -/
theorem c5_verify_malformed_witness :
    security.verify_password c5Ctx ['a', 'b'] ['n', 'o']
      = .error "hash could not be identified" :=
  (c5_verify_malformed c5Ctx ['a', 'b'] ['n', 'o']).1 (by decide)

/-- Helper: nonemptiness of the decimal print of an integer. -/
theorem pyStrOfInt_ne_nil (i : Int) : pyStrOfInt i ≠ [] := by
  unfold pyStrOfInt
  split
  · simp
  · obtain ⟨d, ds, hds, _⟩ := pyStrOfNat_head i.natAbs
    rw [hds]
    simp

/-- Helper: a decode at time dnow of a token created by create_jwt_token
at time now with a truthy supplied ttl succeeds, provided the token is
not yet expired and the caller data is acceptable to the registered-claim
checks, and returns the data with the three injected claims. -/
theorem verify_create_round (data : Claims) (tt : String) (t now dnow : Int)
    (ht : t ≠ 0) (hd : dnow ≤ now + t)
    (hc : claimsAcceptable data dnow = true) :
    jwt.verify_jwt_token (jwt.create_jwt_token data now (some t) tt) dnow
      = some (((data.insert "exp" (JValue.num (now + t))).insert "iat"
          (JValue.num now)).insert "type" (JValue.str tt)) := by
  have hpay : (jwt.create_jwt_token data now (some t) tt).payload
      = ((data.insert "exp" (JValue.num (now + t))).insert "iat"
          (JValue.num now)).insert "type" (JValue.str tt) := by
    simp only [jwt.create_jwt_token, jose.encode]
    rw [if_pos ht]
  have hkey : (jwt.create_jwt_token data now (some t) tt).key
      = settings.SECRET_KEY := rfl
  have halg : (jwt.create_jwt_token data now (some t) tt).alg
      = settings.ALGORITHM := rfl
  have hget : ∀ k : String, k ≠ "type" → k ≠ "iat" → k ≠ "exp" →
      (((data.insert "exp" (JValue.num (now + t))).insert "iat"
          (JValue.num now)).insert "type" (JValue.str tt)).get k
        = data.get k := by
    intro k h1 h2 h3
    rw [Claims.get_insert_ne _ _ _ _ h1, Claims.get_insert_ne _ _ _ _ h2,
      Claims.get_insert_ne _ _ _ _ h3]
  have hexp : (((data.insert "exp" (JValue.num (now + t))).insert "iat"
      (JValue.num now)).insert "type" (JValue.str tt)).get "exp"
        = some (JValue.num (now + t)) := by
    rw [Claims.get_insert_ne _ _ _ _ (by decide),
      Claims.get_insert_ne _ _ _ _ (by decide), Claims.get_insert_self]
  have hiat : (((data.insert "exp" (JValue.num (now + t))).insert "iat"
      (JValue.num now)).insert "type" (JValue.str tt)).get "iat"
        = some (JValue.num now) := by
    rw [Claims.get_insert_ne _ _ _ _ (by decide), Claims.get_insert_self]
  unfold claimsAcceptable at hc
  simp only [Bool.and_eq_true] at hc
  obtain ⟨⟨haud, hsub⟩, hnbf⟩ := hc
  have hciat : jose.validate_iat (((data.insert "exp"
      (JValue.num (now + t))).insert "iat" (JValue.num now)).insert "type"
        (JValue.str tt)) = true := by
    simp [jose.validate_iat, hiat, pyIntOfValue]
  have hcexp : jose.validate_exp (((data.insert "exp"
      (JValue.num (now + t))).insert "iat" (JValue.num now)).insert "type"
        (JValue.str tt)) dnow = true := by
    simp [jose.validate_exp, hexp, pyIntOfValue]
    omega
  have hcnbf : jose.validate_nbf (((data.insert "exp"
      (JValue.num (now + t))).insert "iat" (JValue.num now)).insert "type"
        (JValue.str tt)) dnow = true := by
    unfold jose.validate_nbf
    rw [hget "nbf" (by decide) (by decide) (by decide)]
    exact hnbf
  have hcsub : jose.validate_sub (((data.insert "exp"
      (JValue.num (now + t))).insert "iat" (JValue.num now)).insert "type"
        (JValue.str tt)) = true := by
    unfold jose.validate_sub
    rw [hget "sub" (by decide) (by decide) (by decide)]
    exact hsub
  have hcaud : jose.validate_aud (((data.insert "exp"
      (JValue.num (now + t))).insert "iat" (JValue.num now)).insert "type"
        (JValue.str tt)) = true := by
    unfold jose.validate_aud
    rw [hget "aud" (by decide) (by decide) (by decide)]
    exact haud
  unfold jwt.verify_jwt_token jose.decode
  rw [hpay, hkey, halg, if_pos]
  simp [hciat, hcexp, hcnbf, hcsub, hcaud]

/-- C3: token round trip: decoding, under the same key and before the
injected expiry, a token encoded from acceptable claims data with a
positive ttl succeeds and returns the data plus exactly the injected exp,
iat and type claims. -/
theorem c3_round_trip (data : Claims) (tt : String) (t now dnow : Int)
    (ht : 0 < t) (hd : dnow < now + t)
    (hc : claimsAcceptable data dnow = true) :
    jwt.verify_jwt_token (jwt.create_jwt_token data now (some t) tt) dnow
      = some (((data.insert "exp" (JValue.num (now + t))).insert "iat"
          (JValue.num now)).insert "type" (JValue.str tt)) :=
  verify_create_round data tt t now dnow (by omega) (by omega) hc

/-- C3 witness: the round trip at a concrete claims map and ttl. -/
theorem c3_round_trip_witness :
    jwt.verify_jwt_token
        (jwt.create_jwt_token [("sub", JValue.str "1")] 0 (some 60) "access")
        10
      = some (Claims.insert
          (Claims.insert
            (Claims.insert [("sub", JValue.str "1")] "exp" (JValue.num 60))
            "iat" (JValue.num 0))
          "type" (JValue.str "access")) :=
  c3_round_trip [("sub", JValue.str "1")] "access" 60 0 10 (by decide)
    (by decide) (by decide)

/-- C6: the consume-password-reset endpoint answers the 400 reset error
whenever the token fails verification (bad signature or expired) or does
not carry purpose password_reset, and a successful credential update
implies the token verified and carried that purpose. -/
theorem c6_reset_guard (ctx : CryptContext) (token : JWT)
    (np : List Char) (db : List models.User) (now : Int) :
    (security.verify_token token now = none →
       authapi.reset_password ctx token np db now
         = .httpError ⟨400, "Invalid or expired reset token"⟩)
    ∧ (∀ payload, security.verify_token token now = some payload →
        payload.get "purpose" ≠ some (.str "password_reset") →
        authapi.reset_password ctx token np db now
          = .httpError ⟨400, "Invalid or expired reset token"⟩)
    ∧ (∀ newDb, authapi.reset_password ctx token np db now = .ok newDb →
        ∃ payload, security.verify_token token now = some payload
          ∧ payload.get "purpose" = some (.str "password_reset")) := by
  have part1 : security.verify_token token now = none →
      authapi.reset_password ctx token np db now
        = .httpError ⟨400, "Invalid or expired reset token"⟩ := by
    intro h
    unfold authapi.reset_password
    rw [h]
  have part2 : ∀ payload, security.verify_token token now = some payload →
      payload.get "purpose" ≠ some (.str "password_reset") →
      authapi.reset_password ctx token np db now
        = .httpError ⟨400, "Invalid or expired reset token"⟩ := by
    intro payload hp hpur
    unfold authapi.reset_password
    rw [hp]
    exact if_pos (Or.inr hpur)
  refine ⟨part1, part2, ?_⟩
  intro newDb h
  cases hv : security.verify_token token now with
  | none =>
    rw [part1 hv] at h
    exact absurd h (by simp)
  | some payload =>
    by_cases hpur : payload.get "purpose" = some (.str "password_reset")
    · exact ⟨payload, rfl, hpur⟩
    · rw [part2 payload hv hpur] at h
      exact absurd h (by simp)

/-- C6 witness: a well-signed, unexpired ordinary access token carrying no
purpose claim is rejected with the 400 reset error. -/
theorem c6_reset_guard_witness :
    authapi.reset_password ⟨fun s => s, fun _ _ => false⟩ c6AccessToken
        ['n'] [] 10
      = .httpError ⟨400, "Invalid or expired reset token"⟩ :=
  (c6_reset_guard ⟨fun s => s, fun _ _ => false⟩ c6AccessToken ['n'] [] 10).2.1
    [("type", JValue.str "access"), ("exp", JValue.num 604800),
     ("sub", JValue.str "1")]
    (by decide) (by decide)

/-- Helper: the raising resolver of app/api/v1/auth.py only ever fails
with its shared 401 credentials exception. -/
theorem authapi.get_current_user_error (t : JWT) (db : List models.User)
    (now : Int) (e : HTTPException)
    (h : authapi.get_current_user t db now = .error e) :
    e = authapi.credentials_exception := by
  unfold authapi.get_current_user at h
  repeat' split at h
  all_goals simp_all

/-- C7: the permission guard rejects a request without a credential with a
401, and it answers the 403 insufficient-permissions error exactly when a
principal was resolved (hence authenticated) and merely lacks the
permission. -/
theorem c7_guard_order (p : permissions.Permission) (db : List models.User)
    (now : Int) :
    permissions.require_permission p none db now
        = Except.error ⟨401, "Not authenticated"⟩
    ∧ ∀ t : JWT,
        (permissions.require_permission p (some t) db now
            = Except.error ⟨403, "Insufficient permissions"⟩
          ↔ ∃ u, authapi.get_current_user t db now = Except.ok u
              ∧ permissions.has_permission (.user u) p = false) := by
  refine ⟨rfl, fun t => ?_⟩
  have hred : permissions.require_permission p (some t) db now
      = (match authapi.get_current_user t db now with
         | Except.error e => Except.error e
         | Except.ok user =>
           if ¬ permissions.has_permission (.user user) p then
             Except.error ⟨403, "Insufficient permissions"⟩
           else Except.ok user) := rfl
  rw [hred]
  cases hg : authapi.get_current_user t db now with
  | error e =>
    have he := authapi.get_current_user_error t db now e hg
    subst he
    try rw [hg]
    simp [authapi.credentials_exception]
  | ok u =>
    try rw [hg]
    by_cases hp : permissions.has_permission (.user u) p
    · simp [hp]
    · simp [hp]

/-- C7 witness: the permission guard for SERVICE_UPDATE with no credential
presented answers 401, not 403. -/
theorem c7_guard_order_witness :
    permissions.require_permission permissions.Permission.SERVICE_UPDATE
        none [] 0
      = Except.error ⟨401, "Not authenticated"⟩ :=
  (c7_guard_order permissions.Permission.SERVICE_UPDATE [] 0).1

/-- C8: both hash and verify truncate the password to its first 72
characters, so two passwords that agree on those characters are treated
identically by the verifier. -/
theorem c8_truncation (ctx : CryptContext) (p1 p2 : List Char)
    (h : p1.take 72 = p2.take 72) :
    security.verify_password ctx p2 (security.get_password_hash ctx p1)
      = security.verify_password ctx p1 (security.get_password_hash ctx p1) := by
  have htr : (if p1.length > 72 then p1.take 72 else p1)
      = (if p2.length > 72 then p2.take 72 else p2) := by
    by_cases h1 : p1.length > 72 <;> by_cases h2 : p2.length > 72
    · simpa [h1, h2] using h
    · have e2 := List.take_of_length_le (le_of_not_lt h2)
      simp only [if_pos h1, if_neg h2]
      rw [h, e2]
    · have e1 := List.take_of_length_le (le_of_not_lt h1)
      simp only [if_neg h1, if_pos h2]
      rw [← e1, h]
    · have e1 := List.take_of_length_le (le_of_not_lt h1)
      have e2 := List.take_of_length_le (le_of_not_lt h2)
      simp only [if_neg h1, if_neg h2]
      rw [← e1, h, e2]
  unfold security.verify_password
  rw [htr]

/-- C8 witness: a 73-character password and the password formed by
replacing its 73rd character verify identically against the first one's
hash. -/
theorem c8_truncation_witness :
    security.verify_password c8Ctx (List.replicate 72 'a' ++ ['b'])
        (security.get_password_hash c8Ctx (List.replicate 73 'a'))
      = security.verify_password c8Ctx (List.replicate 73 'a')
        (security.get_password_hash c8Ctx (List.replicate 73 'a')) :=
  c8_truncation c8Ctx (List.replicate 73 'a')
    (List.replicate 72 'a' ++ ['b']) (by decide)

/-- Helper: the stringified id stored in a reset token is a nonempty
string. -/
theorem string_mk_pyStrOfInt_ne_empty (i : Int) :
    String.mk (pyStrOfInt i) ≠ "" := by
  intro he
  apply pyStrOfInt_ne_nil i
  have hd : (String.mk (pyStrOfInt i)).data = ("" : String).data := by
    rw [he]
  simpa using hd

/-- C9: a password-reset token is accepted by the optional authentication
resolver as an ordinary credential: for every active principal, the token
minted by create_password_reset_token for its id resolves to that
principal through get_current_user at any time up to the 30-minute expiry
- neither the decode nor the resolver inspects the token_type or purpose
claims. -/
theorem c9_reset_token_resolves (u : models.User) (db : List models.User)
    (inow dnow : Int) (hact : u.status = models.UserStatus.ACTIVE)
    (hfind : db.find? (fun v => v.id == u.id) = some u)
    (hid : u.id ≠ 0) (hexp : dnow ≤ inow + 30 * 60) :
    dependencies.get_current_user
        (some (jwt.create_password_reset_token u.id inow)) db dnow
      = some u := by
  have hacc : claimsAcceptable
      [("sub", JValue.str (String.mk (pyStrOfInt u.id))),
       ("purpose", JValue.str "password_reset")] dnow = true := rfl
  have hv := verify_create_round
    [("sub", JValue.str (String.mk (pyStrOfInt u.id))),
     ("purpose", JValue.str "password_reset")]
    "access" (30 * 60) inow dnow (by decide) hexp hacc
  have hgetsub : (Claims.insert
      (Claims.insert
        (Claims.insert
          [("sub", JValue.str (String.mk (pyStrOfInt u.id))),
           ("purpose", JValue.str "password_reset")]
          "exp" (JValue.num (inow + 30 * 60)))
        "iat" (JValue.num inow))
      "type" (JValue.str "access")).get "sub"
        = some (JValue.str (String.mk (pyStrOfInt u.id))) := by
    rw [Claims.get_insert_ne _ _ _ _ (by decide),
      Claims.get_insert_ne _ _ _ _ (by decide),
      Claims.get_insert_ne _ _ _ _ (by decide)]
    rfl
  have huid : jwt.get_user_id_from_token (Claims.insert
      (Claims.insert
        (Claims.insert
          [("sub", JValue.str (String.mk (pyStrOfInt u.id))),
           ("purpose", JValue.str "password_reset")]
          "exp" (JValue.num (inow + 30 * 60)))
        "iat" (JValue.num inow))
      "type" (JValue.str "access")) = some u.id := by
    unfold jwt.get_user_id_from_token
    rw [hgetsub]
    have htr : jvTruthy (JValue.str (String.mk (pyStrOfInt u.id))) = true := by
      simp [jvTruthy, bne_iff_ne, string_mk_pyStrOfInt_ne_empty]
    show (if jvTruthy (JValue.str (String.mk (pyStrOfInt u.id))) = true
        then pyIntOfValue (JValue.str (String.mk (pyStrOfInt u.id)))
        else none) = some u.id
    rw [if_pos htr]
    show pyIntOfChars (String.mk (pyStrOfInt u.id)).toList = some u.id
    have hdata : (String.mk (pyStrOfInt u.id)).toList = pyStrOfInt u.id := rfl
    rw [hdata, pyIntOfChars_pyStrOfInt]
  unfold jwt.create_password_reset_token dependencies.get_current_user
  show (match jwt.verify_jwt_token (jwt.create_jwt_token
      [("sub", JValue.str (String.mk (pyStrOfInt u.id))),
       ("purpose", JValue.str "password_reset")] inow (some (30 * 60))
      "access") dnow with
    | none => none
    | some payload =>
      match jwt.get_user_id_from_token payload with
      | none => none
      | some user_id =>
        if user_id = 0 then none
        else
          match db.find? (fun v => v.id == user_id) with
          | none => none
          | some user =>
            if user.status ≠ models.UserStatus.ACTIVE then none
            else some user) = some u
  rw [hv]
  norm_num at huid
  simp [huid, hid, hfind, hact]

/-- C9 witness: the reset token for the concrete active user id 5 resolves
that user. -/
theorem c9_reset_token_resolves_witness :
    dependencies.get_current_user
        (some (jwt.create_password_reset_token 5 100)) [c9ActiveUser] 200
      = some c9ActiveUser :=
  c9_reset_token_resolves c9ActiveUser [c9ActiveUser] 100 200 rfl
    (by decide) (by decide) (by decide)

/-- C10: the editor guard admits exactly the roles ADMIN and EDITOR: for
every authenticated active principal, get_current_editor_user returns the
principal exactly when its role lies in that two-element set, and raises
the 403 editor error exactly otherwise. -/
theorem c10_editor_guard (u : models.User) :
    (dependencies.get_current_editor_user (Except.ok u) = Except.ok u
      ↔ (u.role = models.UserRole.ADMIN ∨ u.role = models.UserRole.EDITOR))
    ∧ (dependencies.get_current_editor_user (Except.ok u)
        = Except.error ⟨403, "Editor privileges required"⟩
      ↔ ¬(u.role = models.UserRole.ADMIN ∨ u.role = models.UserRole.EDITOR)) := by
  obtain ⟨i, e, un, hp, r, s⟩ := u
  cases r <;> simp [dependencies.get_current_editor_user]

/-- C10 witness: the guard passes a concrete editor through. -/
theorem c10_editor_guard_witness :
    dependencies.get_current_editor_user (Except.ok c10EditorUser)
      = Except.ok c10EditorUser :=
  (c10_editor_guard c10EditorUser).1.mpr (Or.inr rfl)

end AbroadKhabar
